import Mathlib

/-!
Shallow embedding of `pkg/verify/verify.go` (package `verify`) of the
litmus repository, together with theorems about its verification logic.

Transliteration conventions:
* Go's `(value, error)` named-return pairs become `α × Option Err` where
  `Err := String`; `none` is a nil error.  Early `return` statements become
  nested `if`/`match` expressions; a bare `break` in a loop becomes the
  recursion stopping and returning the current pair.
* Error messages keep the text of the corresponding `fmt.Errorf` format,
  with the interpolated arguments spliced by string concatenation and the
  single-quote characters around them dropped.  The call at
  `isDeleteAnyRunningPod`/`isDeleteOldestRunningPod` passes two arguments
  for three `%s` verbs; Go renders the third verb as `%!s(MISSING)`, which
  is kept verbatim.
* The `kubectl` package (`pkg/kubectl`) is repository code that is not part
  of the verified sources; following the specification it is an external
  collaborator capability set, modelled as the abstract `KubeRunner`
  structure below.
* `ioutil.ReadFile` and `yaml.Unmarshal` are external effects, modelled as
  explicit function parameters of `load`.
-/

namespace Verify

/-- Errors are carried as their message strings; `none` models a nil Go error. -/
abbrev Err := String

/-- Go `strings.TrimSpace`, over the character list of the string: drops
leading and trailing whitespace.  The code only ever tests
`len(strings.TrimSpace(s)) == 0`, which is invariant under the byte-length
versus character-length distinction. -/
def trimSpace (s : String) : List Char :=
  ((s.toList.dropWhile Char.isWhitespace).reverse.dropWhile Char.isWhitespace).reverse

/-- Embeds `Component` of `verify.go`: the information about a particular component
of an installation (name, namespace, kind, apiVersion, labels, alias). -/
structure Component where
  name : String
  «namespace» : String
  kind : String
  apiVersion : String
  labels : String
  «alias» : String
deriving DecidableEq, Repr

/-- The zero value of the Go `Component` struct (all fields empty). -/
def Component.zero : Component :=
  { name := "", «namespace» := "", kind := "", apiVersion := "", labels := "", «alias» := "" }

/-- Embeds `Installation` of `verify.go`: a set of components representing an
installation. -/
structure Installation where
  verifyID : String
  version : String
  components : List Component
deriving DecidableEq, Repr

/-- Modelled from the spec: the consumed collaborator capability set of the
`kubectl` package (external to the verified core, source not available):
run an arbitrary cluster command, check resource existence by
kind/name/namespace/labels, list running pod names, get the oldest running
pod, get the nodes hosting pods, delete a pod, and classify whether a kind
string denotes a pod.  Each fallible capability returns a Go-style
`(value, error)` pair. -/
structure KubeRunner where
  run : List String → String → String → String × Option Err
  isResourceDeployed : String → String → String → String → Bool × Option Err
  arePodsRunning : String → String → Bool × Option Err
  getRunningPods : String → String → List String × Option Err
  getOldestRunningPod : String → String → String × Option Err
  getPodNodes : String → String → List String × Option Err
  deletePod : String → String → Option Err
  isPod : String → Bool

/-- Embeds `KubeInstallVerify` of `verify.go`: verification logic of an installation.
The `installation` field is a Go pointer, hence an `Option`. -/
structure KubeInstallVerify where
  installation : Option Installation
  kubectl : KubeRunner

/-- The component list behind `v.installation.Components`.  The Go code
dereferences the pointer without a nil check in the helpers below; every
theorem in this file instantiates `installation` with `some _`, so the
`none` branch (a Go panic) is never exercised. -/
def KubeInstallVerify.components (v : KubeInstallVerify) : List Component :=
  match v.installation with
  | some i => i.components
  | none => []

/-- Embeds `load` of `verify.go`: converts a verify file into an `*Installation`.
`readFile` models `ioutil.ReadFile` and `unmarshalFn` models the
`unmarshal` helper built on `yaml.Unmarshal` (which always returns a
non-nil pointer alongside a possible error). -/
def load (readFile : String → Except Err String)
    (unmarshalFn : String → Installation × Option Err)
    (file : String) : Option Installation × Option Err :=
  if file.length == 0 then
    (none, some "failed to load: verify file is not provided")
  else
    match readFile file with
    | .error e => (none, some e)
    | .ok d =>
      let ie := unmarshalFn d
      (some ie.1, ie.2)

/-- Embeds `NewKubeInstallVerify` of `verify.go`: builds a verifier from a runner and
a verify file; a load error yields a nil verifier and that error. -/
def NewKubeInstallVerify (readFile : String → Except Err String)
    (unmarshalFn : String → Installation × Option Err)
    (runner : KubeRunner) (file : String) : Option KubeInstallVerify × Option Err :=
  match load readFile unmarshalFn file with
  | (_, some e) => (none, some e)
  | (i, none) => (some { kubectl := runner, installation := i }, none)

/-- Embeds `isComponentDeployed` of `verify.go`: delegates existence of a component
to the runner. -/
def KubeInstallVerify.isComponentDeployed (v : KubeInstallVerify) (component : Component) :
    Bool × Option Err :=
  v.kubectl.isResourceDeployed component.kind component.name component.«namespace» component.labels

/-- The `for` loop of `IsDeployed`: reassigns `(yes, err)` at every
component and breaks at the first non-nil error. -/
def KubeInstallVerify.deployedLoop (v : KubeInstallVerify) :
    List Component → Bool × Option Err → Bool × Option Err
  | [], acc => acc
  | c :: rest, _ =>
    let r := v.isComponentDeployed c
    if r.2.isSome then r else v.deployedLoop rest r

/-- Embeds `IsDeployed` of `verify.go`. -/
def KubeInstallVerify.IsDeployed (v : KubeInstallVerify) : Bool × Option Err :=
  match v.installation with
  | none => (false, some "failed to check IsDeployed: installation object is nil")
  | some i => v.deployedLoop i.components (false, none)

/-- Embeds `isPodComponentRunning` of `verify.go`.  Note: an empty kind sets `err`
without returning, so the non-pod branch can return `yes = true` together
with that error. -/
def KubeInstallVerify.isPodComponentRunning (v : KubeInstallVerify) (component : Component) :
    Bool × Option Err :=
  let err0 : Option Err :=
    if (trimSpace component.kind).length == 0 then
      some "unable to verify component running status: component kind is required"
    else none
  if !(v.kubectl.isPod component.kind) then
    (true, err0)
  else if (trimSpace component.labels).length == 0 then
    (false, some ("unable to verify component " ++ component.kind ++
      " running status: component labels are required"))
  else
    v.kubectl.arePodsRunning component.«namespace» component.labels

/-- The `for` loop of `IsRunning`: reassigns `(yes, err)` at every component
and breaks at the first non-nil error. -/
def KubeInstallVerify.runningLoop (v : KubeInstallVerify) :
    List Component → Bool × Option Err → Bool × Option Err
  | [], acc => acc
  | c :: rest, _ =>
    let r := v.isPodComponentRunning c
    if r.2.isSome then r else v.runningLoop rest r

/-- Embeds `IsRunning` of `verify.go`. -/
def KubeInstallVerify.IsRunning (v : KubeInstallVerify) : Bool × Option Err :=
  match v.installation with
  | none => (false, some "failed to check IsRunning: installation object is nil")
  | some i => v.runningLoop i.components (false, none)

/-- Embeds `getMatchingPodComponent` of `verify.go`: the pod-kind components
carrying the alias; exactly one must match. -/
def KubeInstallVerify.getMatchingPodComponent (v : KubeInstallVerify) (a : String) :
    Component × Option Err :=
  let filtered := v.components.filter (fun c => c.«alias» == a && v.kubectl.isPod c.kind)
  match filtered with
  | [] => (Component.zero, some ("component not found for alias " ++ a))
  | [c] => (c, none)
  | _ :: _ :: _ =>
    (Component.zero, some ("multiple components found for alias " ++ a ++
      ": alias should be unique in an install"))

/-- Embeds `isDeleteAnyRunningPod` of `verify.go`. -/
def KubeInstallVerify.isDeleteAnyRunningPod (v : KubeInstallVerify) (a : String) :
    Bool × Option Err :=
  let ce := v.getMatchingPodComponent a
  match ce.2 with
  | some e => (false, some e)
  | none =>
    let c := ce.1
    if (trimSpace c.labels).length == 0 then
      (false, some ("unable to fetch component " ++ c.kind ++ " " ++ a ++
        ": component labels are missing %!s(MISSING)"))
    else
      let pe := v.kubectl.getRunningPods c.«namespace» c.labels
      match pe.2 with
      | some e2 => (false, some e2)
      | none =>
        match pe.1 with
        | [] => (false, some ("failed to delete any running pod: pods with alias " ++ a ++
            " and running state are not found"))
        | p :: _ =>
          match v.kubectl.deletePod p c.«namespace» with
          | some e3 => (false, some e3)
          | none => (true, none)

/-- Embeds `isDeleteOldestRunningPod` of `verify.go`. -/
def KubeInstallVerify.isDeleteOldestRunningPod (v : KubeInstallVerify) (a : String) :
    Bool × Option Err :=
  let ce := v.getMatchingPodComponent a
  match ce.2 with
  | some e => (false, some e)
  | none =>
    let c := ce.1
    if (trimSpace c.labels).length == 0 then
      (false, some ("unable to fetch component " ++ c.kind ++ " " ++ a ++
        ": component labels are missing %!s(MISSING)"))
    else
      let pe := v.kubectl.getOldestRunningPod c.«namespace» c.labels
      match pe.2 with
      | some e2 => (false, some e2)
      | none =>
        if pe.1.length == 0 then
          (false, some ("failed to delete oldest running pod: pod with alias " ++ a ++
            " and running state is not found"))
        else
          match v.kubectl.deletePod pe.1 c.«namespace» with
          | some e3 => (false, some e3)
          | none => (true, none)

/-- The node-collection loop of `isEachComponentOnUniqueNode`: skips non-pod
components, fails on empty labels or a node-query error, and appends the
queried node names otherwise. -/
def collectNodes (k : KubeRunner) : List Component → List String → Except Err (List String)
  | [], acc => .ok acc
  | f :: rest, acc =>
    if !(k.isPod f.kind) then collectNodes k rest acc
    else if (trimSpace f.labels).length == 0 then
      .error ("unable to fetch component " ++ f.kind ++ " node: component labels are required")
    else
      let ne := k.getPodNodes f.«namespace» f.labels
      match ne.2 with
      | some e => .error e
      | none => collectNodes k rest (acc ++ ne.1)

/-- The duplicate scan of `isEachComponentOnUniqueNode`: walks the node list
with a seen-set, returning `false` at the first node already seen. -/
def firstDupScan : List String → List String → Bool
  | [], _ => true
  | n :: rest, seen => if n ∈ seen then false else firstDupScan rest (n :: seen)

/-- Embeds `isEachComponentOnUniqueNode` of `verify.go`. -/
def KubeInstallVerify.isEachComponentOnUniqueNode (v : KubeInstallVerify) (a : String) :
    Bool × Option Err :=
  let filtered := v.components.filter (fun c => c.«alias» == a)
  match collectNodes v.kubectl filtered [] with
  | .error e => (false, some e)
  | .ok nodes => (firstDupScan nodes [], none)

/-- The `Condition` constant `UniqueNodeCond` of `verify.go`. -/
def UniqueNodeCond : String := "unique-node"

/-- The `Action` constant `DeleteAnyPodAction` of `verify.go`. -/
def DeleteAnyPodAction : String := "delete-any-pod"

/-- The `Action` constant `DeleteOldestPodAction` of `verify.go`. -/
def DeleteOldestPodAction : String := "delete-oldest-pod"

/-- Embeds `IsCondition` of `verify.go`: dispatches on the condition name. -/
def KubeInstallVerify.IsCondition (v : KubeInstallVerify) (a : String) (condition : String) :
    Bool × Option Err :=
  if condition == UniqueNodeCond then
    v.isEachComponentOnUniqueNode a
  else
    (false, some ("condition " ++ condition ++ " is not supported"))

/-- Embeds `IsAction` of `verify.go`: dispatches on the action name. -/
def KubeInstallVerify.IsAction (v : KubeInstallVerify) (a : String) (action : String) :
    Bool × Option Err :=
  if action == DeleteAnyPodAction then
    v.isDeleteAnyRunningPod a
  else if action == DeleteOldestPodAction then
    v.isDeleteOldestRunningPod a
  else
    (false, some ("action " ++ action ++ " is not supported"))

/-- Embeds `KubeConnectionVerify` of `verify.go`. -/
structure KubeConnectionVerify where
  kubectl : KubeRunner

/-- Embeds `NewKubeConnectionVerify` of `verify.go`. -/
def NewKubeConnectionVerify (runner : KubeRunner) : KubeConnectionVerify :=
  { kubectl := runner }

/-- Embeds `IsConnected` of `verify.go`: runs `kubectl get pods` with empty
namespace and context; success means connected. -/
def KubeConnectionVerify.IsConnected (k : KubeConnectionVerify) : Bool × Option Err :=
  match (k.kubectl.run ["get", "pods"] "" "").2 with
  | none => (true, none)
  | some e => (false, some e)

/-! ### Statement-side helper definitions -/

/-- A verifier whose installation pointer is non-nil, as produced by a
successful `NewKubeInstallVerify`. -/
def mkVerify (r : KubeRunner) (i : Installation) : KubeInstallVerify :=
  { installation := some i, kubectl := r }

/-- The pod-kind components of `inst` carrying alias `a` — the list built by
the filter loop of `getMatchingPodComponent`. -/
def matchingPodComponents (r : KubeRunner) (inst : Installation) (a : String) : List Component :=
  inst.components.filter (fun c => c.«alias» == a && r.isPod c.kind)

/-- The concatenation, in component order, of the node names the runner
reports for the alias-matching pod-kind components; non-pod components
contribute nothing. -/
def nodesOfAlias (r : KubeRunner) (inst : Installation) (a : String) : List String :=
  ((inst.components.filter (fun c => c.«alias» == a)).filter
    (fun c => r.isPod c.kind)).flatMap
      (fun f => (r.getPodNodes f.«namespace» f.labels).1)

/-! ### Example fixtures used by witness theorems -/

/-- A runner whose every query succeeds: one running pod `p1` on node
`nodeA`, every resource deployed, and kinds equal to `pods` classified as
pod-kind. -/
def happyRunner : KubeRunner where
  run := fun _ _ _ => ("", none)
  isResourceDeployed := fun _ _ _ _ => (true, none)
  arePodsRunning := fun _ _ => (true, none)
  getRunningPods := fun _ _ => (["p1"], none)
  getOldestRunningPod := fun _ _ => ("p1", none)
  getPodNodes := fun _ _ => (["nodeA"], none)
  deletePod := fun _ _ => none
  isPod := fun k => k == "pods"

/-- A sample pod-kind component labelled `name=app` with alias `db`. -/
def dbComponent : Component :=
  { name := "db-0", «namespace» := "default", kind := "pods", apiVersion := "v1",
    labels := "name=app", «alias» := "db" }

/-- A sample installation holding a single pod component. -/
def dbInstallation : Installation :=
  { verifyID := "v1", version := "0.1", components := [dbComponent] }

/-! ### Helper lemmas -/

theorem mkVerify_components (r : KubeRunner) (i : Installation) :
    (mkVerify r i).components = i.components := rfl

theorem mkVerify_kubectl (r : KubeRunner) (i : Installation) :
    (mkVerify r i).kubectl = r := rfl

theorem deployedLoop_all_ok (v : KubeInstallVerify) (l : List Component) (a : Bool)
    (h : ∀ c ∈ l, (v.isComponentDeployed c).2 = none) :
    v.deployedLoop l (a, none) =
      ((l.map fun c => (v.isComponentDeployed c).1).getLastD a, none) := by
  induction l generalizing a with
  | nil => simp [KubeInstallVerify.deployedLoop]
  | cons c rest ih =>
    have hc : (v.isComponentDeployed c).2 = none := h c (by simp)
    have hrest : ∀ c' ∈ rest, (v.isComponentDeployed c').2 = none := by
      intro c' hc'
      exact h c' (by simp [hc'])
    simp only [KubeInstallVerify.deployedLoop, hc, Option.isSome_none, List.map_cons,
      List.getLastD_cons]
    have hpair : v.isComponentDeployed c = ((v.isComponentDeployed c).1, none) := by
      rw [← hc]
    rw [if_neg (by simp), hpair]
    exact ih (v.isComponentDeployed c).1 hrest

theorem deployedLoop_first_err (v : KubeInstallVerify) (pre : List Component) (c : Component)
    (post : List Component) (acc : Bool × Option Err)
    (hpre : ∀ c' ∈ pre, (v.isComponentDeployed c').2 = none)
    (hc : (v.isComponentDeployed c).2.isSome) :
    v.deployedLoop (pre ++ c :: post) acc = v.isComponentDeployed c := by
  induction pre generalizing acc with
  | nil =>
    simp only [List.nil_append, KubeInstallVerify.deployedLoop]
    rw [if_pos hc]
  | cons p pre' ih =>
    have hp : (v.isComponentDeployed p).2 = none := hpre p (by simp)
    simp only [List.cons_append, KubeInstallVerify.deployedLoop, hp]
    rw [if_neg (by simp [hp])]
    exact ih _ (fun c' hc' => hpre c' (by simp [hc']))

theorem firstDupScan_true_iff (l seen : List String) :
    firstDupScan l seen = true ↔ l.Nodup ∧ ∀ a ∈ l, a ∉ seen := by
  induction l generalizing seen with
  | nil => simp [firstDupScan]
  | cons n rest ih =>
    by_cases hn : n ∈ seen
    · simp only [firstDupScan, if_pos hn]
      constructor
      · intro h
        exact absurd h (by simp)
      · rintro ⟨-, hall⟩
        exact absurd hn (hall n (by simp))
    · simp only [firstDupScan, if_neg hn, ih, List.nodup_cons, List.mem_cons]
      constructor
      · rintro ⟨hnd, hall⟩
        refine ⟨⟨fun hmem => ?_, hnd⟩, ?_⟩
        · exact (hall n hmem) (Or.inl rfl)
        · intro a ha
          rcases ha with rfl | ha
          · exact hn
          · intro haseen
            exact (hall a ha) (Or.inr haseen)
      · rintro ⟨⟨hnr, hnd⟩, hall⟩
        refine ⟨hnd, fun a ha => ?_⟩
        rintro (rfl | haseen)
        · exact hnr ha
        · exact (hall a (Or.inr ha)) haseen

theorem firstDupScan_nil_eq_decide (l : List String) :
    firstDupScan l [] = decide l.Nodup := by
  by_cases h : l.Nodup
  · rw [(firstDupScan_true_iff l []).2 ⟨h, fun a _ => List.not_mem_nil a⟩]
    simp [h]
  · have h2 : firstDupScan l [] ≠ true := fun hh =>
      h ((firstDupScan_true_iff l []).1 hh).1
    simp only [decide_eq_false h]
    exact Bool.eq_false_iff.mpr h2

theorem collectNodes_ok (r : KubeRunner) (l : List Component) (acc : List String)
    (h : ∀ f ∈ l, r.isPod f.kind = true →
      (trimSpace f.labels).length ≠ 0 ∧ (r.getPodNodes f.«namespace» f.labels).2 = none) :
    collectNodes r l acc =
      .ok (acc ++ (l.filter (fun c => r.isPod c.kind)).flatMap
        (fun f => (r.getPodNodes f.«namespace» f.labels).1)) := by
  induction l generalizing acc with
  | nil => simp [collectNodes]
  | cons f rest ih =>
    have hrest : ∀ f' ∈ rest, r.isPod f'.kind = true →
        (trimSpace f'.labels).length ≠ 0 ∧ (r.getPodNodes f'.«namespace» f'.labels).2 = none := by
      intro f' hf'
      exact h f' (by simp [hf'])
    by_cases hpod : r.isPod f.kind = true
    · obtain ⟨hlab, hq⟩ := h f (by simp) hpod
      simp only [collectNodes, hpod, Bool.not_true, Bool.false_eq_true, if_false]
      rw [if_neg (by simpa using hlab)]
      simp only [hq]
      rw [ih _ hrest]
      simp [List.filter_cons, hpod, List.append_assoc]
    · have hpod' : r.isPod f.kind = false := by
        cases hb : r.isPod f.kind
        · rfl
        · exact absurd hb hpod
      simp only [collectNodes, hpod', Bool.not_false, if_true]
      rw [ih _ hrest]
      simp [List.filter_cons, hpod']

theorem getMatchingPodComponent_eq (r : KubeRunner) (inst : Installation) (a : String) :
    (mkVerify r inst).getMatchingPodComponent a =
      match matchingPodComponents r inst a with
      | [] => (Component.zero, some ("component not found for alias " ++ a))
      | [c] => (c, none)
      | _ :: _ :: _ =>
        (Component.zero, some ("multiple components found for alias " ++ a ++
          ": alias should be unique in an install")) := rfl

/-! ### Claim theorems -/

/-- An installation with no components at all. -/
def emptyInstallation : Installation :=
  { verifyID := "v0", version := "0.1", components := [] }

/-- C10: for an installation whose components list is empty, `IsDeployed` and
`IsRunning` both return `(false, nil)`: the loop body never runs and the
zero-valued boolean is returned with a nil error. -/
theorem empty_installation_not_deployed_not_running (r : KubeRunner) (inst : Installation)
    (h : inst.components = []) :
    (mkVerify r inst).IsDeployed = (false, none) ∧
    (mkVerify r inst).IsRunning = (false, none) := by
  constructor
  · simp [KubeInstallVerify.IsDeployed, mkVerify, h, KubeInstallVerify.deployedLoop]
  · simp [KubeInstallVerify.IsRunning, mkVerify, h, KubeInstallVerify.runningLoop]

/-- Witness for C10, at a concrete empty installation. -/
theorem empty_installation_not_deployed_not_running_witness :
    (mkVerify happyRunner emptyInstallation).IsDeployed = (false, none) ∧
    (mkVerify happyRunner emptyInstallation).IsRunning = (false, none) :=
  empty_installation_not_deployed_not_running happyRunner emptyInstallation rfl

/-- C8: loading an empty file path always fails with an error, hence
`NewKubeInstallVerify` on an empty verify file returns a nil verifier and
that error, for every file system, parser and runner. -/
theorem load_empty_path_fails (readFile : String → Except Err String)
    (unmarshalFn : String → Installation × Option Err) (runner : KubeRunner)
    (file : String) (h : file.length = 0) :
    load readFile unmarshalFn file =
      (none, some "failed to load: verify file is not provided") ∧
    NewKubeInstallVerify readFile unmarshalFn runner file =
      (none, some "failed to load: verify file is not provided") := by
  have hb : (file.length == 0) = true := by simp [h]
  constructor
  · simp [load, hb]
  · simp [NewKubeInstallVerify, load, hb]

/-- Witness for C8, at the empty path with a concrete file system and parser. -/
theorem load_empty_path_fails_witness :
    load (fun _ => .ok "") (fun _ => (emptyInstallation, none)) "" =
      (none, some "failed to load: verify file is not provided") ∧
    NewKubeInstallVerify (fun _ => .ok "") (fun _ => (emptyInstallation, none)) happyRunner "" =
      (none, some "failed to load: verify file is not provided") :=
  load_empty_path_fails (fun _ => .ok "") (fun _ => (emptyInstallation, none)) happyRunner "" rfl

/-- C7: `IsConnected` runs a single list query and returns `yes = true`
exactly when the runner returned no error; a runner error is returned as
`(false, that error)`. -/
theorem isConnected_iff_run_ok (k : KubeConnectionVerify) :
    (k.IsConnected.1 = true ↔ (k.kubectl.run ["get", "pods"] "" "").2 = none) ∧
    ((k.kubectl.run ["get", "pods"] "" "").2 = none → k.IsConnected = (true, none)) ∧
    (∀ e, (k.kubectl.run ["get", "pods"] "" "").2 = some e →
      k.IsConnected = (false, some e)) := by
  cases he : (k.kubectl.run ["get", "pods"] "" "").2 with
  | none =>
    have hdef : k.IsConnected = (true, none) := by
      unfold KubeConnectionVerify.IsConnected
      simp [he]
    exact ⟨by simp [hdef, he], fun _ => hdef, fun e h => by simp [he] at h⟩
  | some e =>
    have hdef : k.IsConnected = (false, some e) := by
      unfold KubeConnectionVerify.IsConnected
      simp [he]
    refine ⟨by simp [hdef, he], fun h => by simp [he] at h, fun e' h => ?_⟩
    cases h
    exact hdef

/-- Witness for C7, at a concrete connected runner. -/
theorem isConnected_iff_run_ok_witness :
    (NewKubeConnectionVerify happyRunner).IsConnected = (true, none) :=
  (isConnected_iff_run_ok (NewKubeConnectionVerify happyRunner)).2.1 rfl

/-- C6: every condition name other than `unique-node` makes `IsCondition`
return `false` with an error, and every action name other than
`delete-any-pod` and `delete-oldest-pod` makes `IsAction` return `false`
with an error. -/
theorem unsupported_condition_and_action (v : KubeInstallVerify) (a cond act : String)
    (hc : cond ≠ UniqueNodeCond) (ha1 : act ≠ DeleteAnyPodAction)
    (ha2 : act ≠ DeleteOldestPodAction) :
    v.IsCondition a cond = (false, some ("condition " ++ cond ++ " is not supported")) ∧
    v.IsAction a act = (false, some ("action " ++ act ++ " is not supported")) := by
  constructor
  · simp [KubeInstallVerify.IsCondition, hc]
  · simp [KubeInstallVerify.IsAction, ha1, ha2]

/-- Witness for C6, at the concrete names `no-such-condition` and
`no-such-action`. -/
theorem unsupported_condition_and_action_witness :
    (mkVerify happyRunner emptyInstallation).IsCondition "db" "no-such-condition" =
      (false, some "condition no-such-condition is not supported") ∧
    (mkVerify happyRunner emptyInstallation).IsAction "db" "no-such-action" =
      (false, some "action no-such-action is not supported") :=
  unsupported_condition_and_action (mkVerify happyRunner emptyInstallation) "db"
    "no-such-condition" "no-such-action" (by decide) (by decide) (by decide)

/-- A runner deploying exactly the resources named `ok`. -/
def okOnlyRunner : KubeRunner :=
  { happyRunner with isResourceDeployed := fun _ n _ _ => (n == "ok", none) }

/-- Two components of which only the second is reported deployed by
`okOnlyRunner`. -/
def mixedInstallation : Installation :=
  { verifyID := "v5", version := "0.1",
    components := [{ Component.zero with name := "bad" }, { Component.zero with name := "ok" }] }

/-- C1: with a non-nil descriptor, `IsDeployed` queries each component in
order, stops at the first query error returning that result, and otherwise
returns the boolean observed for the last component — not the logical AND
over all components, as the final existential shows on a two-component
installation whose first component is not deployed. -/
theorem isDeployed_last_value_or_first_error (r : KubeRunner) (inst : Installation) :
    ((∀ c ∈ inst.components, ((mkVerify r inst).isComponentDeployed c).2 = none) →
      (mkVerify r inst).IsDeployed =
        ((inst.components.map fun c => ((mkVerify r inst).isComponentDeployed c).1).getLastD false,
          none)) ∧
    (∀ (pre : List Component) (c : Component) (post : List Component),
      inst.components = pre ++ c :: post →
      (∀ c' ∈ pre, ((mkVerify r inst).isComponentDeployed c').2 = none) →
      ((mkVerify r inst).isComponentDeployed c).2.isSome →
      (mkVerify r inst).IsDeployed = (mkVerify r inst).isComponentDeployed c) ∧
    (∃ (rr : KubeRunner) (ii : Installation) (c : Component),
      c ∈ ii.components ∧ ((mkVerify rr ii).isComponentDeployed c).1 = false ∧
      (mkVerify rr ii).IsDeployed = (true, none)) := by
  have hstart : (mkVerify r inst).IsDeployed =
      (mkVerify r inst).deployedLoop inst.components (false, none) := rfl
  refine ⟨?_, ?_, ?_⟩
  · intro h
    rw [hstart, deployedLoop_all_ok _ _ _ h]
  · intro pre c post heq hpre hc
    rw [hstart, heq, deployedLoop_first_err _ _ _ _ _ hpre hc]
  · exact ⟨okOnlyRunner, mixedInstallation, { Component.zero with name := "bad" },
      by decide, by decide, by decide⟩

/-- Witness for C1, on an error-free runner and a one-component installation. -/
theorem isDeployed_last_value_or_first_error_witness :
    (mkVerify happyRunner dbInstallation).IsDeployed =
      ((dbInstallation.components.map
        fun c => ((mkVerify happyRunner dbInstallation).isComponentDeployed c).1).getLastD false,
        none) :=
  (isDeployed_last_value_or_first_error happyRunner dbInstallation).1 (by decide)

/-- C9: a component whose kind is empty (assumed classified as non-pod) makes
`isPodComponentRunning` set the kind-required error yet still take the
non-pod branch, returning `yes = true` together with that error; when such a
component heads the list, `IsRunning` returns the pair `(true, that error)`. -/
theorem empty_kind_nonpod_running_true_with_error (r : KubeRunner) (inst : Installation)
    (c : Component) (hkind : (trimSpace c.kind).length = 0) (hnp : r.isPod c.kind = false) :
    (mkVerify r inst).isPodComponentRunning c =
      (true, some "unable to verify component running status: component kind is required") ∧
    (∀ rest, inst.components = c :: rest →
      (mkVerify r inst).IsRunning =
        (true, some "unable to verify component running status: component kind is required")) := by
  have h1 : (mkVerify r inst).isPodComponentRunning c =
      (true, some "unable to verify component running status: component kind is required") := by
    simp [KubeInstallVerify.isPodComponentRunning, hkind, hnp, mkVerify_kubectl]
  refine ⟨h1, fun rest heq => ?_⟩
  have hstart : (mkVerify r inst).IsRunning =
      (mkVerify r inst).runningLoop inst.components (false, none) := rfl
  rw [hstart, heq]
  simp [KubeInstallVerify.runningLoop, h1]

/-- An installation headed by the zero-valued component (empty kind, empty
labels). -/
def zeroInstallation : Installation :=
  { verifyID := "v6", version := "0.1", components := [Component.zero] }

/-- Witness for C9: on the zero-valued component, `IsRunning` evaluates to
`true` alongside a non-nil error. -/
theorem empty_kind_nonpod_running_true_with_error_witness :
    (mkVerify happyRunner zeroInstallation).IsRunning =
      (true, some "unable to verify component running status: component kind is required") :=
  (empty_kind_nonpod_running_true_with_error happyRunner zeroInstallation Component.zero
    (by decide) (by decide)).2 [] rfl

/-- C2: the `unique-node` condition, when every alias-matching pod component
has labels and its node query succeeds, evaluates to `(true, nil)` exactly
when the concatenated node-name list for the alias-matching pod-kind
components has no duplicate (non-pod components are skipped), and to
`(false, nil)` exactly when it has one. -/
theorem uniqueNode_iff_nodup (r : KubeRunner) (inst : Installation) (a : String)
    (hok : ∀ f ∈ inst.components, f.«alias» = a → r.isPod f.kind = true →
      (trimSpace f.labels).length ≠ 0 ∧ (r.getPodNodes f.«namespace» f.labels).2 = none) :
    (mkVerify r inst).IsCondition a UniqueNodeCond =
      (decide (nodesOfAlias r inst a).Nodup, none) ∧
    ((mkVerify r inst).IsCondition a UniqueNodeCond = (true, none) ↔
      (nodesOfAlias r inst a).Nodup) ∧
    ((mkVerify r inst).IsCondition a UniqueNodeCond = (false, none) ↔
      ¬(nodesOfAlias r inst a).Nodup) := by
  have hfil : ∀ f ∈ inst.components.filter (fun c => c.«alias» == a),
      r.isPod f.kind = true →
      (trimSpace f.labels).length ≠ 0 ∧ (r.getPodNodes f.«namespace» f.labels).2 = none := by
    intro f hf hp
    have hmem := List.mem_filter.1 hf
    exact hok f hmem.1 (by simpa using hmem.2) hp
  have hcoll := collectNodes_ok r (inst.components.filter (fun c => c.«alias» == a)) [] hfil
  have hmain : (mkVerify r inst).IsCondition a UniqueNodeCond =
      (decide (nodesOfAlias r inst a).Nodup, none) := by
    have hdisp : (mkVerify r inst).IsCondition a UniqueNodeCond =
        (mkVerify r inst).isEachComponentOnUniqueNode a := by
      simp [KubeInstallVerify.IsCondition]
    rw [hdisp]
    unfold KubeInstallVerify.isEachComponentOnUniqueNode
    rw [mkVerify_components, mkVerify_kubectl]
    simp only [hcoll, List.nil_append]
    rw [firstDupScan_nil_eq_decide]
    rfl
  refine ⟨hmain, ?_, ?_⟩
  · rw [hmain]
    by_cases h : (nodesOfAlias r inst a).Nodup <;> simp [h]
  · rw [hmain]
    by_cases h : (nodesOfAlias r inst a).Nodup <;> simp [h]

/-- A second `db`-aliased pod component; `happyRunner` reports `nodeA` for
both, so the pair violates node uniqueness. -/
def dbComponent2 : Component :=
  { dbComponent with name := "db-1" }

/-- An installation with two pod components aliased `db`. -/
def dbPairInstallation : Installation :=
  { verifyID := "v4", version := "0.1", components := [dbComponent, dbComponent2] }

/-- Witness for C2, on two `db` pods that `happyRunner` places on the same
node. -/
theorem uniqueNode_iff_nodup_witness :
    (mkVerify happyRunner dbPairInstallation).IsCondition "db" UniqueNodeCond =
      (decide (nodesOfAlias happyRunner dbPairInstallation "db").Nodup, none) :=
  (uniqueNode_iff_nodup happyRunner dbPairInstallation "db" (by decide)).1

/-- C3: `getMatchingPodComponent` succeeds exactly when precisely one
component is pod-kind and carries the alias — returning that component —
and errors on zero or several matches, in which case both alias-keyed
delete actions also fail. -/
theorem getMatchingPodComponent_unique_alias (r : KubeRunner) (inst : Installation) (a : String) :
    (((mkVerify r inst).getMatchingPodComponent a).2 = none ↔
      (matchingPodComponents r inst a).length = 1) ∧
    (∀ c, matchingPodComponents r inst a = [c] →
      (mkVerify r inst).getMatchingPodComponent a = (c, none)) ∧
    ((matchingPodComponents r inst a).length ≠ 1 →
      ((mkVerify r inst).isDeleteAnyRunningPod a).1 = false ∧
      ((mkVerify r inst).isDeleteAnyRunningPod a).2.isSome ∧
      ((mkVerify r inst).isDeleteOldestRunningPod a).1 = false ∧
      ((mkVerify r inst).isDeleteOldestRunningPod a).2.isSome) := by
  rcases hfil : matchingPodComponents r inst a with - | ⟨c0, - | ⟨c1, rest⟩⟩
  · have hg : (mkVerify r inst).getMatchingPodComponent a =
        (Component.zero, some ("component not found for alias " ++ a)) := by
      simp only [getMatchingPodComponent_eq, hfil]
    refine ⟨by simp [hg], fun c hc => absurd hc (by simp), fun _ => ?_⟩
    refine ⟨?_, ?_, ?_, ?_⟩ <;>
      simp [KubeInstallVerify.isDeleteAnyRunningPod, KubeInstallVerify.isDeleteOldestRunningPod, hg]
  · have hg : (mkVerify r inst).getMatchingPodComponent a = (c0, none) := by
      simp only [getMatchingPodComponent_eq, hfil]
    refine ⟨by simp [hg], fun c hc => ?_, fun hlen => absurd rfl hlen⟩
    have h1 : c0 = c := by injection hc
    rw [hg, h1]
  · have hg : (mkVerify r inst).getMatchingPodComponent a =
        (Component.zero, some ("multiple components found for alias " ++ a ++
          ": alias should be unique in an install")) := by
      simp only [getMatchingPodComponent_eq, hfil]
    refine ⟨by simp [hg], fun c hc => absurd hc (by simp), fun _ => ?_⟩
    refine ⟨?_, ?_, ?_, ?_⟩ <;>
      simp [KubeInstallVerify.isDeleteAnyRunningPod, KubeInstallVerify.isDeleteOldestRunningPod, hg]

/-- Witness for C3: the single-match case on the one-pod installation and
the zero-match case on the empty installation. -/
theorem getMatchingPodComponent_unique_alias_witness :
    (mkVerify happyRunner dbInstallation).getMatchingPodComponent "db" = (dbComponent, none) ∧
    ((mkVerify happyRunner emptyInstallation).isDeleteAnyRunningPod "db").2.isSome :=
  ⟨(getMatchingPodComponent_unique_alias happyRunner dbInstallation "db").2.1 dbComponent
      (by decide),
   ((getMatchingPodComponent_unique_alias happyRunner emptyInstallation "db").2.2
      (by decide)).2.1⟩

/-- C4: a pod-kind component with empty (or whitespace-only) labels makes the
running-state check return an error, and makes `delete-any-pod` and
`delete-oldest-pod` return an error whenever it is the unique alias match;
each result is a fixed error value, so no query or delete is consulted. -/
theorem pod_empty_labels_fails (r : KubeRunner) (inst : Installation) (a : String) (c : Component)
    (hpod : r.isPod c.kind = true) (hlab : (trimSpace c.labels).length = 0) :
    (mkVerify r inst).isPodComponentRunning c =
      (false, some ("unable to verify component " ++ c.kind ++
        " running status: component labels are required")) ∧
    (matchingPodComponents r inst a = [c] →
      (mkVerify r inst).isDeleteAnyRunningPod a =
        (false, some ("unable to fetch component " ++ c.kind ++ " " ++ a ++
          ": component labels are missing %!s(MISSING)")) ∧
      (mkVerify r inst).isDeleteOldestRunningPod a =
        (false, some ("unable to fetch component " ++ c.kind ++ " " ++ a ++
          ": component labels are missing %!s(MISSING)"))) := by
  constructor
  · simp [KubeInstallVerify.isPodComponentRunning, hpod, hlab, mkVerify_kubectl]
  · intro hmatch
    have hg : (mkVerify r inst).getMatchingPodComponent a = (c, none) := by
      simp only [getMatchingPodComponent_eq, hmatch]
    constructor
    · simp [KubeInstallVerify.isDeleteAnyRunningPod, hg, hlab]
    · simp [KubeInstallVerify.isDeleteOldestRunningPod, hg, hlab]

/-- A pod-kind component aliased `db` whose labels are blank. -/
def unlabeledPod : Component :=
  { Component.zero with kind := "pods", «alias» := "db", labels := " " }

/-- An installation holding only the unlabeled pod component. -/
def unlabeledInstallation : Installation :=
  { verifyID := "v3", version := "0.1", components := [unlabeledPod] }

/-- Witness for C4, on the blank-labelled pod component. -/
theorem pod_empty_labels_fails_witness :
    (mkVerify happyRunner unlabeledInstallation).isPodComponentRunning unlabeledPod =
      (false, some ("unable to verify component " ++ unlabeledPod.kind ++
        " running status: component labels are required")) ∧
    (mkVerify happyRunner unlabeledInstallation).isDeleteAnyRunningPod "db" =
      (false, some ("unable to fetch component " ++ unlabeledPod.kind ++ " " ++ "db" ++
        ": component labels are missing %!s(MISSING)")) :=
  ⟨(pod_empty_labels_fails happyRunner unlabeledInstallation "db" unlabeledPod
      (by decide) (by decide)).1,
   ((pod_empty_labels_fails happyRunner unlabeledInstallation "db" unlabeledPod
      (by decide) (by decide)).2 (by decide)).1⟩

/-- C5: `delete-oldest-pod` with a uniquely matching, labelled pod component:
an empty fetched pod name yields the not-found error and no delete; a
non-empty name whose delete succeeds yields `(true, nil)`; a fetch or
delete error is returned with `yes = false`. -/
theorem deleteOldest_pod_outcomes (r : KubeRunner) (inst : Installation) (a : String)
    (c : Component) (hmatch : matchingPodComponents r inst a = [c])
    (hlab : (trimSpace c.labels).length ≠ 0) :
    (r.getOldestRunningPod c.«namespace» c.labels = ("", none) →
      (mkVerify r inst).isDeleteOldestRunningPod a =
        (false, some ("failed to delete oldest running pod: pod with alias " ++ a ++
          " and running state is not found"))) ∧
    (∀ p, r.getOldestRunningPod c.«namespace» c.labels = (p, none) → p.length ≠ 0 →
      r.deletePod p c.«namespace» = none →
      (mkVerify r inst).isDeleteOldestRunningPod a = (true, none)) ∧
    (∀ e, (r.getOldestRunningPod c.«namespace» c.labels).2 = some e →
      (mkVerify r inst).isDeleteOldestRunningPod a = (false, some e)) ∧
    (∀ p e, r.getOldestRunningPod c.«namespace» c.labels = (p, none) → p.length ≠ 0 →
      r.deletePod p c.«namespace» = some e →
      (mkVerify r inst).isDeleteOldestRunningPod a = (false, some e)) := by
  have hg : (mkVerify r inst).getMatchingPodComponent a = (c, none) := by
    simp only [getMatchingPodComponent_eq, hmatch]
  refine ⟨fun hfetch => ?_, fun p hfetch hp hdel => ?_, fun e hfetch => ?_,
    fun p e hfetch hp hdel => ?_⟩
  · simp [KubeInstallVerify.isDeleteOldestRunningPod, hg, hlab, hfetch, mkVerify_kubectl]
  · simp [KubeInstallVerify.isDeleteOldestRunningPod, hg, hlab, hfetch, hp, hdel,
      mkVerify_kubectl]
  · simp [KubeInstallVerify.isDeleteOldestRunningPod, hg, hlab, hfetch, mkVerify_kubectl]
  · simp [KubeInstallVerify.isDeleteOldestRunningPod, hg, hlab, hfetch, hp, hdel,
      mkVerify_kubectl]

/-- Witness for C5, on the one-pod installation where `happyRunner` reports
oldest pod `p1` and deletes it without error. -/
theorem deleteOldest_pod_outcomes_witness :
    (mkVerify happyRunner dbInstallation).isDeleteOldestRunningPod "db" = (true, none) :=
  (deleteOldest_pod_outcomes happyRunner dbInstallation "db" dbComponent
    (by decide) (by decide)).2.1 "p1" rfl (by decide) rfl

end Verify
